import Mathlib

set_option maxRecDepth 1000000

/-!
Verification development for the Fireboard Home Assistant integration
(`custom_components/fireboard/api.py` and `custom_components/fireboard/sensor.py`).

The API client is shallowly embedded: JSON values become an inductive `Json`
type with Python truthiness, membership (`in`) and subscription modelled
faithfully (including the `TypeError`s Python raises on non-container
operands, threaded through `Except`); the network is an oracle mapping the
index of the outgoing HTTP call and the request to an abstract result; the
mutable client object (`self.token`, `self.user_id`, `self.working_endpoints`,
`self.device_cache`) becomes an explicit `ClientState` record threaded through
every operation, extended with a call counter `nreq` that instruments how many
HTTP requests were issued.
-/

/-- JSON values as parsed by `response.json()`.  Numbers are rationals
(Python ints and floats that appear in this API are exactly representable). -/
inductive Json where
  | null
  | bool (b : Bool)
  | num (q : Rat)
  | str (s : String)
  | arr (elems : List Json)
  | obj (fields : List (String × Json))

/-- Python truthiness (`if x:`) of a parsed JSON value:
`None`, `False`, `0`, `""`, `[]` and `{}` are falsy. -/
def pyTruthy : Json → Bool
  | Json.null => false
  | Json.bool b => b
  | Json.num q => q != 0
  | Json.str s => s ≠ ""
  | Json.arr elems => !elems.isEmpty
  | Json.obj fields => !fields.isEmpty

def jsonIsNull : Json → Bool
  | Json.null => true
  | _ => false

def jsonIsArr : Json → Bool
  | Json.arr _ => true
  | _ => false

def jsonIsObj : Json → Bool
  | Json.obj _ => true
  | _ => false

-- Structural equality of JSON values, mirroring Python `==` on parsed JSON
-- (used by `in` on lists).  Mutually recursive over the nesting.
mutual
def jsonBeq : Json → Json → Bool
  | Json.null, Json.null => true
  | Json.bool a, Json.bool b => a == b
  | Json.num a, Json.num b => a == b
  | Json.str a, Json.str b => a == b
  | Json.arr a, Json.arr b => jsonListBeq a b
  | Json.obj a, Json.obj b => jsonFieldsBeq a b
  | _, _ => false

def jsonListBeq : List Json → List Json → Bool
  | [], [] => true
  | a :: as', b :: bs => jsonBeq a b && jsonListBeq as' bs
  | _, _ => false

def jsonFieldsBeq : List (String × Json) → List (String × Json) → Bool
  | [], [] => true
  | (k1, v1) :: as', (k2, v2) :: bs => k1 == k2 && jsonBeq v1 v2 && jsonFieldsBeq as' bs
  | _, _ => false
end

/-- First-match lookup in an association list (Python dict read; dicts built by
`json.loads` have unique keys, so first match equals the dict entry). -/
def dictGet {α : Type} : List (String × α) → String → Option α
  | [], _ => none
  | (k, v) :: rest, key => if k = key then some v else dictGet rest key

/-- Python dict assignment `d[k] = v`: overwrites the value in place if the key
exists (keeping its position in insertion order), otherwise appends. -/
def dictSet {α : Type} : List (String × α) → String → α → List (String × α)
  | [], key, v => [(key, v)]
  | (k, w) :: rest, key, v =>
      if k = key then (key, v) :: rest else (k, w) :: dictSet rest key v

/-- Is `pat` a contiguous substring (Python `pat in s` on strings). -/
def charsInfix : List Char → List Char → Bool
  | pat, [] => pat.isEmpty
  | pat, c :: rest => pat.isPrefixOf (c :: rest) || charsInfix pat rest

/-- Python membership test `key in j` for a string `key`.  Dicts test key
presence, lists test element equality, strings test substring containment;
any other operand raises `TypeError` (modelled as `Except.error`). -/
def pyIn (key : String) : Json → Except String Bool
  | Json.obj fields => Except.ok (fields.any (fun kv => kv.1 = key))
  | Json.arr elems => Except.ok (elems.any (fun e => jsonBeq e (Json.str key)))
  | Json.str s => Except.ok (charsInfix key.toList s.toList)
  | _ => Except.error "TypeError: argument not iterable"

/-- Python subscription `j[key]` for a string `key`: only dicts support it
(`KeyError` cannot occur at the call sites, which are guarded by `in`);
lists, strings and scalars raise `TypeError`. -/
def pySubscr (j : Json) (key : String) : Except String Json :=
  match j with
  | Json.obj fields =>
      match dictGet fields key with
      | some v => Except.ok v
      | none => Except.error "KeyError"
  | _ => Except.error "TypeError: not subscriptable with a string"

/-- Python `str()` of a JSON value, as used in f-string URL interpolation of
`self.user_id`.  Exact for the reachable cases (integers and strings);
containers are abbreviated (no claim exercises them). -/
def pyStr : Json → String
  | Json.null => "None"
  | Json.bool true => "True"
  | Json.bool false => "False"
  | Json.num q => if q.den = 1 then toString q.num else toString q
  | Json.str s => s
  | Json.arr _ => "<list>"
  | Json.obj _ => "<dict>"

/-- Truthiness of an optional string credential (`not self.username`):
falsy when absent or empty. -/
def optStrTruthy : Option String → Bool
  | some s => s ≠ ""
  | none => false

/-- One concrete outgoing HTTP request (method, fully built URL, query
parameters for GET, JSON body for POST/PUT). -/
structure Request where
  method : String
  url : String
  params : Option Json
  data : Option Json

/-- Abstract result of one HTTP exchange: either a response with a status code
and (for the purposes of `response.json()`) an optional parsed body, where
`none` means parsing the body as JSON fails; or a transport-level failure
(`aiohttp.ClientError`, timeout, or any other exception inside the request). -/
inductive HttpResult where
  | response (status : Nat) (body : Option Json)
  | transportError

/-- The network, as seen by the client: the result of the `n`-th HTTP call
(0-based, counting every call the client ever makes) with the given request. -/
abbrev Oracle := Nat → Request → HttpResult

/-- The status code the request engine extracts from an `HttpResult`:
the response status, or 500 for a transport failure (`api.py` lines 164-174). -/
def statusOfRes : HttpResult → Nat
  | HttpResult.response st _ => st
  | HttpResult.transportError => 500

/-- A discovered endpoint entry `{"endpoint": ..., "version": ...}`
stored in `self.working_endpoints`. -/
structure EndpointInfo where
  endpoint : String
  version : Option String
deriving DecidableEq

/-- The mutable state of a `FireboardApiClient` instance, plus the
instrumentation counter `nreq` (number of HTTP calls issued so far). -/
structure ClientState where
  username : Option String
  password : Option String
  token : Json
  user_id : Json
  working_endpoints : List (String × EndpointInfo)
  device_cache : List (String × Json)
  nreq : Nat

/-- `self.api_url` (fixed in `__init__`). -/
def apiUrl : String := "https://fireboard.io/api"

/-- `endpoint.lstrip('/')`. -/
def lstripSlash (s : String) : String := String.mk (s.toList.dropWhile (fun c => c = '/'))

/-- Truthiness of the optional `version` argument (`if version:`):
`None` and `""` are falsy. -/
def optVerTruthy : Option String → Bool
  | some v => v ≠ ""
  | none => false

/-- URL construction of `_api_request` (api.py lines 121-125). -/
def buildUrl (version : Option String) (endpoint : String) : String :=
  if optVerTruthy version then
    apiUrl ++ "/" ++ version.getD "" ++ "/" ++ lstripSlash endpoint
  else
    apiUrl ++ "/" ++ lstripSlash endpoint

/-- The request actually sent by `_api_request` for a given method: GET passes
`params`, POST/PUT pass the JSON body, DELETE passes neither
(api.py lines 133-140). -/
def coreReq (method url : String) (params data : Option Json) : Request :=
  if method = "GET" then { method := method, url := url, params := params, data := none }
  else if method = "POST" ∨ method = "PUT" then
    { method := method, url := url, params := none, data := data }
  else { method := method, url := url, params := none, data := none }

/-- The body of `_api_request` after the authentication guard
(api.py lines 121-174): build the URL, dispatch on the method (an unsupported
method returns `(None, 400)` without any network call), then classify the
result.  A 200 response returns the parsed body — `(None, 200)` when the body
fails JSON parsing; every non-200 response returns `(None, status)` (with
`raise_for_status=True` the raised `ClientResponseError` is caught and yields
the same pair, so the flag does not change the returned value); transport
failures return `(None, 500)`.  No exception escapes. -/
def apiRequestCore (oracle : Oracle) (s : ClientState) (endpoint method : String)
    (params data : Option Json) (rfs : Bool) (version : Option String) :
    ClientState × (Option Json × Nat) :=
  if method = "GET" ∨ method = "POST" ∨ method = "PUT" ∨ method = "DELETE" then
    let url := buildUrl version endpoint
    let res := oracle s.nreq (coreReq method url params data)
    let s1 := { s with nreq := s.nreq + 1 }
    match res with
    | HttpResult.response status body =>
        if status == 200 then (s1, (body, status))
        else (s1, (none, status))
    | HttpResult.transportError => (s1, (none, 500))
  else
    (s, (none, 400))

/-- `_api_request` parameterised over the authentication routine used when no
truthy token is set (api.py lines 116-119): `if not self.token and not await
self.authenticate(): return None, 401`, otherwise fall through to the request
body `apiRequestCore`. -/
def apiRequestA (auth : ClientState → ClientState × Bool) (oracle : Oracle)
    (s : ClientState) (endpoint method : String) (params data : Option Json)
    (rfs : Bool) (version : Option String) : ClientState × (Option Json × Nat) :=
  if pyTruthy s.token then
    apiRequestCore oracle s endpoint method params data rfs version
  else
    let auths := auth s
    if auths.2 then
      apiRequestCore oracle auths.1 endpoint method params data rfs version
    else
      (auths.1, (none, 401))

/-- `get_user_profile` (api.py lines 176-188), parameterised over the
authentication routine: GET `rest-auth/user/`; when the returned profile is
truthy and has an `"id"` member, store it in `self.user_id`; return the profile
(`none` models the Python `None`).  The unguarded `"id" in profile` /
`profile["id"]` can raise `TypeError` on non-dict payloads, which propagates
(`Except.error`). -/
def getUserProfileA (auth : ClientState → ClientState × Bool) (oracle : Oracle)
    (s : ClientState) : ClientState × Except String (Option Json) :=
  let r := apiRequestA auth oracle s "rest-auth/user/" "GET" none none true none
  let s1 := r.1
  match r.2.1 with
  | some p =>
      if pyTruthy p then
        match pyIn "id" p with
        | Except.error e => (s1, Except.error e)
        | Except.ok true =>
            match pySubscr p "id" with
            | Except.error e => (s1, Except.error e)
            | Except.ok v => ({ s1 with user_id := v }, Except.ok (some p))
        | Except.ok false => (s1, Except.ok (some p))
      else (s1, Except.ok (some p))
  | none => (s1, Except.ok none)

/-- One level of `authenticate` (api.py lines 51-100), with `authPrev` standing
for the `authenticate` reachable through the nested
`get_user_profile → _api_request → authenticate` chain.  Requires truthy
username and password; POSTs them to `rest-auth/login/`; on a 200 response
whose body has a `"key"` member, stores the token, then eagerly fetches the
user profile to capture `user_id` (any exception inside — including a
`TypeError` from `"id" in profile` — is caught by the enclosing
`except Exception` and turns the call into `False`, with already-performed
assignments kept); every other outcome returns `False`. -/
def authStep (oracle : Oracle) (authPrev : ClientState → ClientState × Bool)
    (s : ClientState) : ClientState × Bool :=
  if optStrTruthy s.username && optStrTruthy s.password then
    let req : Request :=
      { method := "POST", url := apiUrl ++ "/rest-auth/login/", params := none,
        data := some (Json.obj [("username", Json.str (s.username.getD "")),
                                ("password", Json.str (s.password.getD ""))]) }
    let res := oracle s.nreq req
    let s1 := { s with nreq := s.nreq + 1 }
    match res with
    | HttpResult.response 200 (some d) =>
        match pyIn "key" d with
        | Except.error _ => (s1, false)
        | Except.ok true =>
            match pySubscr d "key" with
            | Except.error _ => (s1, false)
            | Except.ok tok =>
                let s2 := { s1 with token := tok }
                let pr := getUserProfileA authPrev oracle s2
                match pr.2 with
                | Except.error _ => (pr.1, false)
                | Except.ok (some p2) =>
                    if pyTruthy p2 then
                      match pyIn "id" p2 with
                      | Except.error _ => (pr.1, false)
                      | Except.ok true =>
                          match pySubscr p2 "id" with
                          | Except.error _ => (pr.1, false)
                          | Except.ok v => ({ pr.1 with user_id := v }, true)
                      | Except.ok false => (pr.1, true)
                    else (pr.1, true)
                | Except.ok none => (pr.1, true)
        | Except.ok false => (s1, false)
    | HttpResult.response 200 none => (s1, false)
    | HttpResult.response _ _ => (s1, false)
    | HttpResult.transportError => (s1, false)
  else (s, false)

/-- `authenticate` with a bound `fuel` on the depth of nested
re-authentication (the Python code recurses unboundedly when a login response
stores a falsy token; with fuel exhausted the innermost attempt reports
failure, matching the `RecursionError`-caught-by-`except Exception` outcome).
All claim theorems quantify over the fuel. -/
def authFuel (oracle : Oracle) : Nat → ClientState → ClientState × Bool
  | 0 => fun s => (s, false)
  | fuel + 1 => authStep oracle (authFuel oracle fuel)

/-- `_api_request` (api.py lines 102-174). -/
def apiRequest (oracle : Oracle) (fuel : Nat) (s : ClientState)
    (endpoint method : String) (params data : Option Json) (rfs : Bool)
    (version : Option String) : ClientState × (Option Json × Nat) :=
  apiRequestA (authFuel oracle fuel) oracle s endpoint method params data rfs version

/-- `get_user_profile` (api.py lines 176-188). -/
def getUserProfile (oracle : Oracle) (fuel : Nat) (s : ClientState) :
    ClientState × Except String (Option Json) :=
  getUserProfileA (authFuel oracle fuel) oracle s

/-- Python `str.startswith` (kernel-computable character-list version). -/
def strStartsWith (s pre : String) : Bool := pre.toList.isPrefixOf s.toList

/-- The fixed version list of endpoint discovery (api.py line 204). -/
def apiVersions : List (Option String) :=
  [some "v1", some "v2", some "v3", some "v4", some "drive", some "cloud",
   some "mobile", none]

/-- The base device path shapes (api.py lines 207-211). -/
def baseDeviceEndpoints : List String := ["devices", "device/list", "user/devices"]

/-- The cache key synthesised for an accepted candidate:
`f"devices_{version}" if version else "devices"` (api.py line 244). -/
def sweepKey (version : Option String) : String :=
  if optVerTruthy version then "devices_" ++ version.getD "" else "devices"

/-- The acceptance test of the discovery sweep (api.py lines 240-243):
status 200 and `isinstance(result, list) or (isinstance(result, dict) and
result)` — note a list is accepted even when empty, while a dict must be
non-empty; a `None` result (JSON parse failure) is never accepted. -/
def probeAccepts (result : Option Json) (status : Nat) : Bool :=
  status == 200 &&
    (match result with
     | some r => jsonIsArr r || (jsonIsObj r && pyTruthy r)
     | none => false)

/-- The probe loop of `_discover_working_api_endpoints` (api.py lines 222-251)
over an explicit list of (version, endpoint) candidates: issue a GET without
raising, and on acceptance assign
`self.working_endpoints[key] = {"endpoint": endpoint, "version": version}`
(a plain dict assignment, overwriting any previous entry for the key). -/
def probeStep (oracle : Oracle) (fuel : Nat) (s : ClientState)
    (version : Option String) (endpoint : String) : ClientState :=
  let r := apiRequest oracle fuel s endpoint "GET" none none false version
  let s1 := r.1
  if probeAccepts r.2.1 r.2.2 then
    { s1 with working_endpoints :=
        (dictSet s1.working_endpoints (sweepKey version)
          (EndpointInfo.mk endpoint version)) }
  else s1

/-- The probe loop of `_discover_working_api_endpoints` over an explicit
candidate list: one `probeStep` per candidate. -/
def sweepProbes (oracle : Oracle) (fuel : Nat) :
    List (Option String × String) → ClientState → ClientState
  | [], s => s
  | (version, endpoint) :: rest, s =>
      sweepProbes oracle fuel rest (probeStep oracle fuel s version endpoint)

/-- The full candidate list of one discovery sweep: versions as the outer
loop, path shapes as the inner loop, with user-scoped paths appended when a
truthy `user_id` is known (api.py lines 204-223). -/
def sweepCandidates (uid : Json) : List (Option String × String) :=
  let eps := baseDeviceEndpoints ++
    (if pyTruthy uid then
      ["users/" ++ pyStr uid ++ "/devices",
       "user/" ++ pyStr uid ++ "/devices",
       "accounts/" ++ pyStr uid ++ "/devices"]
     else [])
  apiVersions.flatMap (fun v => eps.map (fun e => (v, e)))

/-- The profile prelude of `_discover_working_api_endpoints` (api.py lines
197-201): when no truthy `user_id` is known, fetch the profile and capture a
truthy profile's `"id"`.  A `TypeError` raised by the unguarded
`"id" in profile` / `profile["id"]` propagates. -/
def discoverProfileStep (oracle : Oracle) (fuel : Nat) (s : ClientState) :
    ClientState × Except String Unit :=
  if pyTruthy s.user_id then (s, Except.ok ())
  else
    let pr := getUserProfile oracle fuel s
    match pr.2 with
    | Except.error e => (pr.1, Except.error e)
    | Except.ok (some p) =>
        if pyTruthy p then
          match pyIn "id" p with
          | Except.error e => (pr.1, Except.error e)
          | Except.ok true =>
              match pySubscr p "id" with
              | Except.error e => (pr.1, Except.error e)
              | Except.ok v => ({ pr.1 with user_id := v }, Except.ok ())
          | Except.ok false => (pr.1, Except.ok ())
        else (pr.1, Except.ok ())
    | Except.ok none => (pr.1, Except.ok ())

/-- `_discover_working_api_endpoints` (api.py lines 190-254): return the
working-endpoint cache unchanged if it is non-empty; otherwise run the profile
prelude and the probe sweep and return the (possibly still empty) cache. -/
def discover (oracle : Oracle) (fuel : Nat) (s : ClientState) :
    ClientState × Except String (List (String × EndpointInfo)) :=
  if s.working_endpoints.isEmpty then
    match discoverProfileStep oracle fuel s with
    | (s1, Except.error e) => (s1, Except.error e)
    | (s1, Except.ok _) =>
        let s2 := sweepProbes oracle fuel (sweepCandidates s1.user_id) s1
        (s2, Except.ok s2.working_endpoints)
  else (s, Except.ok s.working_endpoints)

/-- Lookup guard `isinstance(result, dict) and key in result` used by the
device-list unwrapping (total: the operand is checked to be a dict first). -/
def isObjWithKey (r : Json) (key : String) : Bool :=
  match r with
  | Json.obj fields => fields.any (fun kv => kv.1 = key)
  | _ => false

/-- `result[key]` under an `isObjWithKey` guard (the default is unreachable
when guarded). -/
def objGet (r : Json) (key : String) : Json :=
  match r with
  | Json.obj fields => (dictGet fields key).getD Json.null
  | _ => Json.null

/-- The loop of `get_devices` over discovered endpoints (api.py lines
280-299): for every cache entry whose key starts with `"devices_"`, issue the
request; a list payload is returned as is, a dict payload is unwrapped through
`"devices"` then `"results"`; anything else moves to the next entry. -/
def tryDiscovered (oracle : Oracle) (fuel : Nat) :
    List (String × EndpointInfo) → ClientState → ClientState × Option Json
  | [], s => (s, none)
  | (key, info) :: rest, s =>
      if strStartsWith key "devices_" then
        let r := apiRequest oracle fuel s info.endpoint "GET" none none true info.version
        let s1 := r.1
        match r.2.1 with
        | some res =>
            if jsonIsArr res then (s1, some res)
            else if isObjWithKey res "devices" then (s1, some (objGet res "devices"))
            else if isObjWithKey res "results" then (s1, some (objGet res "results"))
            else tryDiscovered oracle fuel rest s1
        | none => tryDiscovered oracle fuel rest s1
      else tryDiscovered oracle fuel rest s

/-- The fallback candidate list of `get_devices` (api.py lines 302-312): a
fixed list of conventional endpoint/version pairs, with a user-scoped path
appended when `self.user_id` is truthy. -/
def fallbackCandidates (uid : Json) : List EndpointInfo :=
  [EndpointInfo.mk "devices" none, EndpointInfo.mk "devices" (some "v1"),
   EndpointInfo.mk "devices" (some "v2"), EndpointInfo.mk "devices" (some "drive"),
   EndpointInfo.mk "device/list" none, EndpointInfo.mk "user/devices" none] ++
  (if pyTruthy uid then [EndpointInfo.mk ("user/" ++ pyStr uid ++ "/devices") none]
   else [])

/-- The fallback loop of `get_devices` (api.py lines 314-328): same as the
discovered loop but WITHOUT the `"results"` unwrapping — only a list payload
or a dict with a `"devices"` key short-circuits. -/
def tryFallback (oracle : Oracle) (fuel : Nat) :
    List EndpointInfo → ClientState → ClientState × Option Json
  | [], s => (s, none)
  | info :: rest, s =>
      let r := apiRequest oracle fuel s info.endpoint "GET" none none true info.version
      let s1 := r.1
      match r.2.1 with
      | some res =>
          if jsonIsArr res then (s1, some res)
          else if isObjWithKey res "devices" then (s1, some (objGet res "devices"))
          else tryFallback oracle fuel rest s1
      | none => tryFallback oracle fuel rest s1

/-- The profile shortcut of `get_devices` (api.py lines 263-274) for a truthy
profile `p`: if `"userprofile" in p and "devices" in p["userprofile"]` and the
nested `devices` value is truthy, return it (`some devices`); otherwise fall
through (`none`).  The unguarded `in`/subscript operations raise `TypeError`
on non-dict operands, which propagates out of `get_devices`. -/
def profileDevices (p : Json) : Except String (Option Json) :=
  match pyIn "userprofile" p with
  | Except.error e => Except.error e
  | Except.ok false => Except.ok none
  | Except.ok true =>
      match pySubscr p "userprofile" with
      | Except.error e => Except.error e
      | Except.ok up =>
          match pyIn "devices" up with
          | Except.error e => Except.error e
          | Except.ok false => Except.ok none
          | Except.ok true =>
              match pySubscr p "userprofile" with
              | Except.error e => Except.error e
              | Except.ok up2 =>
                  match pySubscr up2 "devices" with
                  | Except.error e => Except.error e
                  | Except.ok devices =>
                      if pyTruthy devices then Except.ok (some devices)
                      else Except.ok none

/-- The profile-handling prefix of `get_devices` (api.py lines 263-274) given
the fetched profile: try the `userprofile`-embedded device list (early return
`some devices`), else capture `profile["id"]` when no truthy `user_id` is
known yet. -/
def getDevicesProfileStep (s1 : ClientState) (profOpt : Option Json) :
    Except String (ClientState × Option Json) :=
  match profOpt with
  | some p =>
      if pyTruthy p then
        match profileDevices p with
        | Except.error e => Except.error e
        | Except.ok (some devices) => Except.ok (s1, some devices)
        | Except.ok none =>
            match pyIn "id" p with
            | Except.error e => Except.error e
            | Except.ok true =>
                if pyTruthy s1.user_id then Except.ok (s1, none)
                else
                  match pySubscr p "id" with
                  | Except.error e => Except.error e
                  | Except.ok v => Except.ok ({ s1 with user_id := v }, none)
            | Except.ok false => Except.ok (s1, none)
      else Except.ok (s1, none)
  | none => Except.ok (s1, none)

/-- `get_devices` (api.py lines 256-335).  Returns the Python return value as
a `Json` (the code's annotation promises a list, but dict unwrapping returns
whatever sits under the `"devices"`/`"results"` key); `Except.error` models an
uncaught `TypeError` from the profile shortcut or discovery. -/
def getDevices (oracle : Oracle) (fuel : Nat) (s : ClientState) :
    ClientState × Except String Json :=
  let pr := getUserProfile oracle fuel s
  let s1 := pr.1
  match pr.2 with
  | Except.error e => (s1, Except.error e)
  | Except.ok profOpt =>
      match getDevicesProfileStep s1 profOpt with
      | Except.error e => (s1, Except.error e)
      | Except.ok (s2, some devices) => (s2, Except.ok devices)
      | Except.ok (s2, none) =>
          match discover oracle fuel s2 with
          | (s3, Except.error e) => (s3, Except.error e)
          | (s3, Except.ok _) =>
              let dr := tryDiscovered oracle fuel s3.working_endpoints s3
              match dr.2 with
              | some v => (dr.1, Except.ok v)
              | none =>
                  let fr := tryFallback oracle fuel (fallbackCandidates dr.1.user_id) dr.1
                  match fr.2 with
                  | some v => (fr.1, Except.ok v)
                  | none => (fr.1, Except.ok (Json.arr []))

/-- The candidate loop of `get_device` (api.py lines 369-383): first
non-`None` result is cached in `self.device_cache` under the device id and
returned. -/
def tryDevice (oracle : Oracle) (fuel : Nat) (deviceId : String) :
    List EndpointInfo → ClientState → ClientState × Option Json
  | [], s => (s, none)
  | info :: rest, s =>
      let r := apiRequest oracle fuel s info.endpoint "GET" none none true info.version
      let s1 := r.1
      match r.2.1 with
      | some res =>
          ({ s1 with device_cache := dictSet s1.device_cache deviceId res }, some res)
      | none => tryDevice oracle fuel deviceId rest s1

/-- `get_device` (api.py lines 337-383): positive-result cache first, then
discovered-endpoint-derived candidates, then conventional fallbacks. -/
def getDevice (oracle : Oracle) (fuel : Nat) (s : ClientState) (deviceId : String) :
    ClientState × Option Json :=
  match dictGet s.device_cache deviceId with
  | some cached => (s, some cached)
  | none =>
      let cands :=
        ((s.working_endpoints.filter (fun kv => strStartsWith kv.1 "devices_")).map
          (fun kv => EndpointInfo.mk ("devices/" ++ deviceId) kv.2.version)) ++
        [EndpointInfo.mk ("devices/" ++ deviceId) none,
         EndpointInfo.mk ("devices/" ++ deviceId) (some "v1"),
         EndpointInfo.mk ("devices/" ++ deviceId) (some "v2"),
         EndpointInfo.mk ("devices/" ++ deviceId) (some "drive"),
         EndpointInfo.mk ("device/" ++ deviceId) none]
      tryDevice oracle fuel deviceId cands s

/-- A candidate of `get_temperatures`/`get_alerts`: endpoint, version and the
optional query parameters of the last conventional candidate. -/
structure CandP where
  endpoint : String
  version : Option String
  params : Option Json

/-- The shared loop of `get_temperatures`/`get_alerts` (api.py lines 415-425
and 455-465): first non-`None` result is returned unchanged. -/
def tryFirst (oracle : Oracle) (fuel : Nat) :
    List CandP → ClientState → ClientState × Option Json
  | [], s => (s, none)
  | c :: rest, s =>
      let r := apiRequest oracle fuel s c.endpoint "GET" c.params none true c.version
      let s1 := r.1
      match r.2.1 with
      | some res => (s1, some res)
      | none => tryFirst oracle fuel rest s1

/-- `get_temperatures` (api.py lines 385-428). -/
def getTemperatures (oracle : Oracle) (fuel : Nat) (s : ClientState)
    (deviceId : String) : ClientState × Option Json :=
  let cands :=
    ((s.working_endpoints.filter (fun kv => strStartsWith kv.1 "devices_")).flatMap
      (fun kv =>
        [CandP.mk ("devices/" ++ deviceId ++ "/temps") kv.2.version none,
         CandP.mk ("devices/" ++ deviceId ++ "/temperatures") kv.2.version none])) ++
    [CandP.mk ("devices/" ++ deviceId ++ "/temps") none none,
     CandP.mk ("devices/" ++ deviceId ++ "/temps") (some "v1") none,
     CandP.mk ("devices/" ++ deviceId ++ "/temperatures") none none,
     CandP.mk ("device/" ++ deviceId ++ "/temps") none none,
     CandP.mk "temps" none (some (Json.obj [("device", Json.str deviceId)]))]
  tryFirst oracle fuel cands s

/-- `get_alerts` (api.py lines 430-468). -/
def getAlerts (oracle : Oracle) (fuel : Nat) (s : ClientState)
    (deviceId : String) : ClientState × Option Json :=
  let cands :=
    ((s.working_endpoints.filter (fun kv => strStartsWith kv.1 "devices_")).map
      (fun kv => CandP.mk ("devices/" ++ deviceId ++ "/alerts") kv.2.version none)) ++
    [CandP.mk ("devices/" ++ deviceId ++ "/alerts") none none,
     CandP.mk ("devices/" ++ deviceId ++ "/alerts") (some "v1") none,
     CandP.mk ("device/" ++ deviceId ++ "/alerts") none none,
     CandP.mk "alerts" none (some (Json.obj [("device", Json.str deviceId)]))]
  tryFirst oracle fuel cands s

/-- The mutation payload of `create_alert` (api.py lines 480-488): mandatory
device/channel, with `min_temp`/`max_temp` included only when provided. -/
def createAlertData (deviceId channelId : String) (minTemp maxTemp : Option Rat) : Json :=
  Json.obj
    ([("device", Json.str deviceId), ("channel", Json.str channelId)] ++
     (match minTemp with
      | some x => [("min_temp", Json.num x)]
      | none => []) ++
     (match maxTemp with
      | some x => [("max_temp", Json.num x)]
      | none => []))

/-- The POST loop of `create_alert` (api.py lines 514-528). -/
def tryCreate (oracle : Oracle) (fuel : Nat) (data : Json) :
    List EndpointInfo → ClientState → ClientState × Option Json
  | [], s => (s, none)
  | info :: rest, s =>
      let r := apiRequest oracle fuel s info.endpoint "POST" none (some data) true info.version
      let s1 := r.1
      match r.2.1 with
      | some res => (s1, some res)
      | none => tryCreate oracle fuel data rest s1

/-- `create_alert` (api.py lines 470-531). -/
def createAlert (oracle : Oracle) (fuel : Nat) (s : ClientState)
    (deviceId channelId : String) (minTemp maxTemp : Option Rat) :
    ClientState × Option Json :=
  let cands :=
    ((s.working_endpoints.filter (fun kv => strStartsWith kv.1 "devices_")).flatMap
      (fun kv =>
        [EndpointInfo.mk "alerts" kv.2.version,
         EndpointInfo.mk ("devices/" ++ deviceId ++ "/alerts") kv.2.version])) ++
    [EndpointInfo.mk "alerts" none, EndpointInfo.mk "alerts" (some "v1"),
     EndpointInfo.mk ("devices/" ++ deviceId ++ "/alerts") none]
  tryCreate oracle fuel (createAlertData deviceId channelId minTemp maxTemp) cands s

/-- The candidate list of `delete_alert` (api.py lines 537-554):
discovered-version candidates first (insertion order of the cache), then the
two conventional ones. -/
def deleteCandidates (s : ClientState) (alertId : String) : List EndpointInfo :=
  ((s.working_endpoints.filter (fun kv => strStartsWith kv.1 "devices_")).map
    (fun kv => EndpointInfo.mk ("alerts/" ++ alertId) kv.2.version)) ++
  [EndpointInfo.mk ("alerts/" ++ alertId) none,
   EndpointInfo.mk ("alerts/" ++ alertId) (some "v1")]

/-- The DELETE loop of `delete_alert` (api.py lines 556-572): return `True` at
the first candidate whose status is 204 or 200, `False` once the list is
exhausted. -/
def deleteLoop (oracle : Oracle) (fuel : Nat) :
    List EndpointInfo → ClientState → ClientState × Bool
  | [], s => (s, false)
  | info :: rest, s =>
      let r := apiRequest oracle fuel s info.endpoint "DELETE" none none true info.version
      let s1 := r.1
      if r.2.2 == 204 || r.2.2 == 200 then (s1, true)
      else deleteLoop oracle fuel rest s1

/-- `delete_alert` (api.py lines 533-572). -/
def deleteAlert (oracle : Oracle) (fuel : Nat) (s : ClientState) (alertId : String) :
    ClientState × Bool :=
  deleteLoop oracle fuel (deleteCandidates s alertId) s

/-- The temperature field-name fallback order of
`FireboardTemperatureSensor.state` (sensor.py line 481). -/
def tempFieldNames : List String := ["temp", "temperature", "current_temp", "value"]

/-- The field-resolution loop of `FireboardTemperatureSensor.state`
(sensor.py lines 482-485): take the first field name that is present in the
channel dict with a non-`None` value; `none` when no candidate matches (the
sensor then keeps its previous `_state`). -/
def resolveLoop : List String → List (String × Json) → Option Json
  | [], _ => none
  | f :: rest, channel =>
      match dictGet channel f with
      | some v => if jsonIsNull v then resolveLoop rest channel else some v
      | none => resolveLoop rest channel

/-- Temperature resolution for one channel dict (sensor.py lines 480-485). -/
def resolveTemp (channel : List (String × Json)) : Option Json :=
  resolveLoop tempFieldNames channel

/-- Whether a field is present with a non-`None` value (the loop's
`field in channel and channel[field] is not None`). -/
def presentNonNull (channel : List (String × Json)) (f : String) : Bool :=
  match dictGet channel f with
  | some v => !(jsonIsNull v)
  | none => false

/-- Whether the probe of one candidate is accepted (status and payload test of
api.py lines 240-243, applied to the issued request). -/
def probeAcceptsAt (oracle : Oracle) (fuel : Nat) (s : ClientState)
    (version : Option String) (endpoint : String) : Bool :=
  let r := apiRequest oracle fuel s endpoint "GET" none none false version
  probeAccepts r.2.1 r.2.2

/-- Spec-side replay of the discovery sweep (for claim C2): the LAST candidate
with cache key `k` that is accepted during the sweep, `none` when no candidate
for `k` is accepted.  Follows the same state evolution as `sweepProbes`. -/
def sweepLastAccepted (oracle : Oracle) (fuel : Nat) :
    List (Option String × String) → ClientState → String → Option EndpointInfo
  | [], _, _ => none
  | (version, endpoint) :: rest, s, k =>
      match sweepLastAccepted oracle fuel rest (probeStep oracle fuel s version endpoint) k with
      | some info => some info
      | none =>
          if probeAcceptsAt oracle fuel s version endpoint && sweepKey version == k then
            some (EndpointInfo.mk endpoint version)
          else none

/-- Spec-side success test for `delete_alert` (claim C8): a candidate
"responds with status 200 or 204". -/
def respSuccessB : HttpResult → Bool
  | HttpResult.response st _ => st == 204 || st == 200
  | HttpResult.transportError => false

/-- No `"devices"`/`"results"` member of a JSON object carries an explicit
`null` (the envelope shapes `get_devices` unwraps blindly; claim C7). -/
def jsonNoNullEnv : Json → Bool
  | Json.obj fields =>
      fields.all (fun kv =>
        if kv.1 = "devices" ∨ kv.1 = "results" then !(jsonIsNull kv.2) else true)
  | _ => true

/-- Oracle-result-level form of `jsonNoNullEnv` (claim C7): every response
body satisfies it. -/
def bodyNoNull : HttpResult → Bool
  | HttpResult.response _ (some b) => jsonNoNullEnv b
  | _ => true

/-- A freshly authenticated client: credentials set, truthy token, nothing
discovered or cached yet. -/
def baseState : ClientState :=
  { username := some "a@b.com", password := some "x", token := Json.str "t",
    user_id := Json.null, working_endpoints := [], device_cache := [], nreq := 0 }

/-- The one-device list `[{"id": 1}]` of spec property 4. -/
def devList1 : Json := Json.arr [Json.obj [("id", Json.num 1)]]

/-- A client whose working-endpoint cache already holds the `v1` devices
endpoint. -/
def popState : ClientState :=
  { baseState with
    working_endpoints := [("devices_v1", EndpointInfo.mk "devices" (some "v1"))] }

/-- A network on which every request fails with 404. -/
def allFail : Oracle := fun _ _ => HttpResult.response 404 none

/-- A network that answers 401 to every request (expired token scenario,
claim C1). -/
def oracle401 : Oracle := fun _ _ => HttpResult.response 401 none

/-- Claim C2 network: the first two discovery probes — `(v1, "devices")` and
`(v1, "device/list")` — both return 200 with a one-element list; everything
else 404. -/
def cexO2 : Oracle := fun n _ =>
  if n = 0 ∨ n = 1 then
    HttpResult.response 200 (some (Json.arr [Json.obj [("id", Json.num 7)]]))
  else HttpResult.response 404 none

/-- A client with a known truthy `user_id` (skips the profile fetch inside
discovery). -/
def c2State : ClientState := { baseState with user_id := Json.num 1 }

/-- Claim C3 network: the first discovery probe `(v1, "devices")` returns 200
with an EMPTY list; everything else 404. -/
def cexO3 : Oracle := fun n _ =>
  if n = 0 then HttpResult.response 200 (some (Json.arr []))
  else HttpResult.response 404 none

/-- Claim C4 network, replaying spec property 7's shape: call 0 is the first
`get_devices`' profile fetch (a profile with only an id), call 1 is the
`(v1, "devices")` discovery probe (one device), calls 2-48 are the remaining
probes (404), call 49 is the first call's cached-endpoint fetch, call 50 the
second call's profile fetch (404), call 51 the second call's cached-endpoint
fetch. -/
def cexO4 : Oracle := fun n _ =>
  if n = 0 then HttpResult.response 200 (some (Json.obj [("id", Json.num 1)]))
  else if n = 1 ∨ n = 49 ∨ n = 51 then
    HttpResult.response 200 (some (Json.arr [Json.obj [("id", Json.num 7)]]))
  else HttpResult.response 404 none

/-- Claim C5 network A: the cached `v1` devices endpoint (call 1) answers with
the bare list `[{"id":1}]`. -/
def oShapeA : Oracle := fun n _ =>
  if n = 1 then HttpResult.response 200 (some devList1) else HttpResult.response 404 none

/-- Claim C5 network B: the cached endpoint answers `{"devices": [{"id":1}]}`. -/
def oShapeB : Oracle := fun n _ =>
  if n = 1 then HttpResult.response 200 (some (Json.obj [("devices", devList1)]))
  else HttpResult.response 404 none

/-- Claim C5 network C: the cached endpoint answers `{"results": [{"id":1}]}`. -/
def oShapeC : Oracle := fun n _ =>
  if n = 1 then HttpResult.response 200 (some (Json.obj [("results", devList1)]))
  else HttpResult.response 404 none

/-- Claim C5 network D: profile and every discovery probe fail (calls 0-25);
the FIRST FALLBACK candidate (call 26, `GET devices`, no version) answers
`{"results": [{"id":1}]}`; the remaining fallbacks 404. -/
def oShapeD : Oracle := fun n _ =>
  if n = 26 then HttpResult.response 200 (some (Json.obj [("results", devList1)]))
  else HttpResult.response 404 none

/-- Claim C5 network E: as `oShapeD` but the first fallback candidate answers
`{"devices": [{"id":1}]}`. -/
def oShapeE : Oracle := fun n _ =>
  if n = 26 then HttpResult.response 200 (some (Json.obj [("devices", devList1)]))
  else HttpResult.response 404 none

/-- Claim C7 network: the profile fetch 404s, and the cached devices endpoint
answers 200 `{"devices": null}`. -/
def cexO7 : Oracle := fun n _ =>
  if n = 0 then HttpResult.response 404 none
  else HttpResult.response 200 (some (Json.obj [("devices", Json.null)]))

/-- Claim C10 state: a client that has already captured `user_id = 5`. -/
def c10State : ClientState := { baseState with user_id := Json.num 5 }

/-- Claim C10 network: the profile endpoint answers 200 `{"id": null}` —
truthy dict, `"id"` present, value `null`. -/
def cexO10 : Oracle := fun _ _ => HttpResult.response 200 (some (Json.obj [("id", Json.null)]))

/-- Claim C8 deterministic network: every candidate answers 404
(non-existent alert id). -/
def f404 : Request → HttpResult := fun _ => HttpResult.response 404 none

/-- Claim C6 network: a 200 response whose body fails JSON parsing. -/
def oParseFail : Oracle := fun _ _ => HttpResult.response 200 none

theorem dictGet_dictSet {α : Type} (d : List (String × α)) (k : String) (v : α)
    (k' : String) :
    dictGet (dictSet d k v) k' = if k = k' then some v else dictGet d k' := by
  induction d with
  | nil => simp [dictGet, dictSet]
  | cons kv rest ih =>
      obtain ⟨k0, v0⟩ := kv
      by_cases h0 : k0 = k <;> by_cases h1 : k = k' <;>
        simp_all [dictGet, dictSet]

theorem pyTruthy_ne_null (j : Json) (h : pyTruthy j = true) : j ≠ Json.null := by
  cases j <;> simp_all [pyTruthy]

theorem jsonIsArr_ne_null (j : Json) (h : jsonIsArr j = true) : j ≠ Json.null := by
  cases j <;> simp_all [jsonIsArr]

theorem apiRequest_truthy (oracle : Oracle) (fuel : Nat) (s : ClientState)
    (e m : String) (p d : Option Json) (rfs : Bool) (v : Option String)
    (h : pyTruthy s.token = true) :
    apiRequest oracle fuel s e m p d rfs v = apiRequestCore oracle s e m p d rfs v := by
  simp [apiRequest, apiRequestA, h]

theorem core_state (oracle : Oracle) (s : ClientState) (e m : String)
    (p d : Option Json) (rfs : Bool) (v : Option String)
    (hm : m = "GET" ∨ m = "POST" ∨ m = "PUT" ∨ m = "DELETE") :
    (apiRequestCore oracle s e m p d rfs v).1 = { s with nreq := s.nreq + 1 } := by
  simp only [apiRequestCore]
  rw [if_pos hm]
  cases oracle s.nreq (coreReq m (buildUrl v e) p d) with
  | response st b =>
      by_cases h2 : (st == 200) = true
      · simp [h2]
      · simp [h2]
  | transportError => simp

theorem core_status (oracle : Oracle) (s : ClientState) (e m : String)
    (p d : Option Json) (rfs : Bool) (v : Option String)
    (hm : m = "GET" ∨ m = "POST" ∨ m = "PUT" ∨ m = "DELETE") :
    (apiRequestCore oracle s e m p d rfs v).2.2 =
      statusOfRes (oracle s.nreq (coreReq m (buildUrl v e) p d)) := by
  simp only [apiRequestCore]
  rw [if_pos hm]
  cases oracle s.nreq (coreReq m (buildUrl v e) p d) with
  | response st b =>
      by_cases h2 : (st == 200) = true
      · simp [h2, statusOfRes]
      · simp [h2, statusOfRes]
  | transportError => simp [statusOfRes]

theorem core_body (oracle : Oracle) (s : ClientState) (e m : String)
    (p d : Option Json) (rfs : Bool) (v : Option String) (b : Json)
    (hb : (apiRequestCore oracle s e m p d rfs v).2.1 = some b) :
    oracle s.nreq (coreReq m (buildUrl v e) p d) = HttpResult.response 200 (some b) := by
  by_cases hm : m = "GET" ∨ m = "POST" ∨ m = "PUT" ∨ m = "DELETE"
  · simp only [apiRequestCore] at hb
    rw [if_pos hm] at hb
    cases hres : oracle s.nreq (coreReq m (buildUrl v e) p d) with
    | response st bd =>
        rw [hres] at hb
        by_cases h2 : (st == 200) = true
        · simp [h2] at hb
          have hst : st = 200 := by simpa using h2
          subst hst
          rw [hb]
        · simp [h2] at hb
    | transportError =>
        rw [hres] at hb
        simp at hb
  · simp only [apiRequestCore] at hb
    rw [if_neg hm] at hb
    simp at hb

/-- Both client dictionaries are unchanged between two states. -/
def dictsEq (s s' : ClientState) : Prop :=
  s'.working_endpoints = s.working_endpoints ∧ s'.device_cache = s.device_cache

theorem dictsEq_refl (s : ClientState) : dictsEq s s := ⟨rfl, rfl⟩

theorem dictsEq_trans {s1 s2 s3 : ClientState} (h1 : dictsEq s1 s2)
    (h2 : dictsEq s2 s3) : dictsEq s1 s3 :=
  ⟨h2.1.trans h1.1, h2.2.trans h1.2⟩

theorem core_dicts (oracle : Oracle) (s : ClientState) (e m : String)
    (p d : Option Json) (rfs : Bool) (v : Option String) :
    dictsEq s (apiRequestCore oracle s e m p d rfs v).1 := by
  by_cases hm : m = "GET" ∨ m = "POST" ∨ m = "PUT" ∨ m = "DELETE"
  · rw [core_state oracle s e m p d rfs v hm]
    exact ⟨rfl, rfl⟩
  · simp only [apiRequestCore]
    rw [if_neg hm]
    exact ⟨rfl, rfl⟩

theorem apiRequestA_dicts (auth : ClientState → ClientState × Bool) (oracle : Oracle)
    (H : ∀ t : ClientState, dictsEq t (auth t).1) (s : ClientState) (e m : String)
    (p d : Option Json) (rfs : Bool) (v : Option String) :
    dictsEq s (apiRequestA auth oracle s e m p d rfs v).1 := by
  unfold apiRequestA
  dsimp only
  split
  · exact core_dicts oracle s e m p d rfs v
  · split
    · exact dictsEq_trans (H s) (core_dicts oracle (auth s).1 e m p d rfs v)
    · exact H s

theorem getUserProfileA_dicts (auth : ClientState → ClientState × Bool)
    (oracle : Oracle) (H : ∀ t : ClientState, dictsEq t (auth t).1)
    (s : ClientState) : dictsEq s (getUserProfileA auth oracle s).1 := by
  unfold getUserProfileA
  dsimp only
  have h1 := apiRequestA_dicts auth oracle H s "rest-auth/user/" "GET" none none true none
  split
  · split
    · split
      · exact h1
      · split
        · exact h1
        · exact h1
      · exact h1
    · exact h1
  · exact h1

theorem authStep_dicts (oracle : Oracle) (authPrev : ClientState → ClientState × Bool)
    (H : ∀ t : ClientState, dictsEq t (authPrev t).1) (s : ClientState) :
    dictsEq s (authStep oracle authPrev s).1 := by
  unfold authStep
  dsimp only
  repeat' split
  all_goals
    first
      | exact dictsEq_refl s
      | exact ⟨rfl, rfl⟩
      | exact dictsEq_trans (⟨rfl, rfl⟩ : dictsEq s _)
          (getUserProfileA_dicts authPrev oracle H _)

theorem authFuel_dicts (oracle : Oracle) :
    ∀ (fuel : Nat) (s : ClientState), dictsEq s (authFuel oracle fuel s).1 := by
  intro fuel
  induction fuel with
  | zero => intro s; exact dictsEq_refl s
  | succ n ih => intro s; exact authStep_dicts oracle (authFuel oracle n) ih s

theorem apiRequest_dicts (oracle : Oracle) (fuel : Nat) (s : ClientState)
    (e m : String) (p d : Option Json) (rfs : Bool) (v : Option String) :
    dictsEq s (apiRequest oracle fuel s e m p d rfs v).1 :=
  apiRequestA_dicts (authFuel oracle fuel) oracle (authFuel_dicts oracle fuel) s e m p d rfs v

theorem getUserProfile_dicts (oracle : Oracle) (fuel : Nat) (s : ClientState) :
    dictsEq s (getUserProfile oracle fuel s).1 :=
  getUserProfileA_dicts (authFuel oracle fuel) oracle (authFuel_dicts oracle fuel) s

/-- Claim C10's monotone-key relation: every key present in either client
dictionary of `s` is still present in `s'`. -/
def keepsKeys (s s' : ClientState) : Prop :=
  (∀ k, dictGet s.working_endpoints k ≠ none → dictGet s'.working_endpoints k ≠ none) ∧
  (∀ k, dictGet s.device_cache k ≠ none → dictGet s'.device_cache k ≠ none)

theorem keepsKeys_refl (s : ClientState) : keepsKeys s s :=
  ⟨fun _ h => h, fun _ h => h⟩

theorem keepsKeys_trans {s1 s2 s3 : ClientState} (h1 : keepsKeys s1 s2)
    (h2 : keepsKeys s2 s3) : keepsKeys s1 s3 :=
  ⟨fun k h => h2.1 k (h1.1 k h), fun k h => h2.2 k (h1.2 k h)⟩

theorem dictsEq_keepsKeys {s s' : ClientState} (h : dictsEq s s') : keepsKeys s s' :=
  ⟨fun k hk => by rw [h.1]; exact hk, fun k hk => by rw [h.2]; exact hk⟩

theorem dictGet_dictSet_keeps {α : Type} (d : List (String × α)) (k0 : String)
    (v : α) (k : String) (h : dictGet d k ≠ none) :
    dictGet (dictSet d k0 v) k ≠ none := by
  rw [dictGet_dictSet]
  by_cases h0 : k0 = k
  · simp [h0]
  · simp [h0]
    exact h

theorem probeStep_keeps (oracle : Oracle) (fuel : Nat) (s : ClientState)
    (version : Option String) (endpoint : String) :
    keepsKeys s (probeStep oracle fuel s version endpoint) := by
  unfold probeStep
  dsimp only
  have hd := apiRequest_dicts oracle fuel s endpoint "GET" none none false version
  split
  · refine keepsKeys_trans (dictsEq_keepsKeys hd) ?_
    exact ⟨fun k hk => dictGet_dictSet_keeps _ _ _ _ hk, fun k hk => hk⟩
  · exact dictsEq_keepsKeys hd

theorem sweepProbes_keeps (oracle : Oracle) (fuel : Nat) :
    ∀ (l : List (Option String × String)) (s : ClientState),
      keepsKeys s (sweepProbes oracle fuel l s) := by
  intro l
  induction l with
  | nil => intro s; exact keepsKeys_refl s
  | cons c rest ih =>
      intro s
      obtain ⟨version, endpoint⟩ := c
      simp only [sweepProbes]
      exact keepsKeys_trans (probeStep_keeps oracle fuel s version endpoint) (ih _)

theorem discoverProfileStep_dicts (oracle : Oracle) (fuel : Nat) (s : ClientState) :
    dictsEq s (discoverProfileStep oracle fuel s).1 := by
  unfold discoverProfileStep
  dsimp only
  repeat' split
  all_goals
    first
      | exact dictsEq_refl s
      | exact getUserProfile_dicts oracle fuel s

theorem discover_keeps (oracle : Oracle) (fuel : Nat) (s : ClientState) :
    keepsKeys s (discover oracle fuel s).1 := by
  unfold discover
  split
  · have hd := discoverProfileStep_dicts oracle fuel s
    cases hstep : discoverProfileStep oracle fuel s with
    | mk s1 r1 =>
        rw [hstep] at hd
        cases r1 with
        | error e => exact dictsEq_keepsKeys hd
        | ok u =>
            dsimp only
            exact keepsKeys_trans (dictsEq_keepsKeys hd) (sweepProbes_keeps oracle fuel _ _)
  · exact keepsKeys_refl s

theorem tryDiscovered_dicts (oracle : Oracle) (fuel : Nat) :
    ∀ (l : List (String × EndpointInfo)) (s : ClientState),
      dictsEq s (tryDiscovered oracle fuel l s).1 := by
  intro l
  induction l with
  | nil => intro s; exact dictsEq_refl s
  | cons kv rest ih =>
      intro s
      obtain ⟨key, info⟩ := kv
      simp only [tryDiscovered]
      have hd := apiRequest_dicts oracle fuel s info.endpoint "GET" none none true info.version
      repeat' split
      all_goals
        first
          | exact hd
          | exact ih s
          | exact dictsEq_trans hd (ih _)

theorem tryFallback_dicts (oracle : Oracle) (fuel : Nat) :
    ∀ (l : List EndpointInfo) (s : ClientState),
      dictsEq s (tryFallback oracle fuel l s).1 := by
  intro l
  induction l with
  | nil => intro s; exact dictsEq_refl s
  | cons info rest ih =>
      intro s
      simp only [tryFallback]
      have hd := apiRequest_dicts oracle fuel s info.endpoint "GET" none none true info.version
      repeat' split
      all_goals
        first
          | exact hd
          | exact dictsEq_trans hd (ih _)

theorem getDevicesProfileStep_dicts (s1 : ClientState) (profOpt : Option Json)
    (s2 : ClientState) (o : Option Json)
    (h : getDevicesProfileStep s1 profOpt = Except.ok (s2, o)) : dictsEq s1 s2 := by
  unfold getDevicesProfileStep at h
  repeat' split at h
  all_goals
    first
      | (cases h with | refl => exact dictsEq_refl _)
      | simp at h

theorem getDevices_keeps (oracle : Oracle) (fuel : Nat) (s : ClientState) :
    keepsKeys s (getDevices oracle fuel s).1 := by
  unfold getDevices
  dsimp only
  have h1 := getUserProfile_dicts oracle fuel s
  cases hpr : getUserProfile oracle fuel s with
  | mk s1 r1 =>
      rw [hpr] at h1
      cases r1 with
      | error e => exact dictsEq_keepsKeys h1
      | ok profOpt =>
          dsimp only
          cases hstep : getDevicesProfileStep s1 profOpt with
          | error e => exact dictsEq_keepsKeys h1
          | ok pr2 =>
              obtain ⟨s2, o⟩ := pr2
              have h2 := getDevicesProfileStep_dicts s1 profOpt s2 o hstep
              have h12 := dictsEq_keepsKeys (dictsEq_trans h1 h2)
              cases o with
              | some devices => exact h12
              | none =>
                  try dsimp only
                  have h3 := discover_keeps oracle fuel s2
                  cases hdisc : discover oracle fuel s2 with
                  | mk s3 r3 =>
                      rw [hdisc] at h3
                      have h13 := keepsKeys_trans h12 h3
                      cases r3 with
                      | error e => exact h13
                      | ok we =>
                          try dsimp only
                          have h4 := tryDiscovered_dicts oracle fuel s3.working_endpoints s3
                          cases hdr : tryDiscovered oracle fuel s3.working_endpoints s3 with
                          | mk s4 o4 =>
                              rw [hdr] at h4
                              have h14 := keepsKeys_trans h13 (dictsEq_keepsKeys h4)
                              cases o4 with
                              | some v => exact h14
                              | none =>
                                  try dsimp only
                                  have h5 := tryFallback_dicts oracle fuel
                                    (fallbackCandidates s4.user_id) s4
                                  cases hfr : tryFallback oracle fuel
                                      (fallbackCandidates s4.user_id) s4 with
                                  | mk s5 o5 =>
                                      rw [hfr] at h5
                                      have h15 := keepsKeys_trans h14 (dictsEq_keepsKeys h5)
                                      cases o5 with
                                      | some v => exact h15
                                      | none => exact h15

theorem tryDevice_keeps (oracle : Oracle) (fuel : Nat) (deviceId : String) :
    ∀ (l : List EndpointInfo) (s : ClientState),
      keepsKeys s (tryDevice oracle fuel deviceId l s).1 := by
  intro l
  induction l with
  | nil => intro s; exact keepsKeys_refl s
  | cons info rest ih =>
      intro s
      simp only [tryDevice]
      have hd := apiRequest_dicts oracle fuel s info.endpoint "GET" none none true info.version
      split
      · refine keepsKeys_trans (dictsEq_keepsKeys hd) ?_
        exact ⟨fun k hk => hk, fun k hk => dictGet_dictSet_keeps _ _ _ _ hk⟩
      · exact keepsKeys_trans (dictsEq_keepsKeys hd) (ih _)

theorem getDevice_keeps (oracle : Oracle) (fuel : Nat) (s : ClientState)
    (deviceId : String) : keepsKeys s (getDevice oracle fuel s deviceId).1 := by
  unfold getDevice
  split
  · exact keepsKeys_refl s
  · exact tryDevice_keeps oracle fuel deviceId _ s

theorem tryFirst_dicts (oracle : Oracle) (fuel : Nat) :
    ∀ (l : List CandP) (s : ClientState), dictsEq s (tryFirst oracle fuel l s).1 := by
  intro l
  induction l with
  | nil => intro s; exact dictsEq_refl s
  | cons c rest ih =>
      intro s
      simp only [tryFirst]
      have hd := apiRequest_dicts oracle fuel s c.endpoint "GET" c.params none true c.version
      split
      · exact hd
      · exact dictsEq_trans hd (ih _)

theorem tryCreate_dicts (oracle : Oracle) (fuel : Nat) (data : Json) :
    ∀ (l : List EndpointInfo) (s : ClientState),
      dictsEq s (tryCreate oracle fuel data l s).1 := by
  intro l
  induction l with
  | nil => intro s; exact dictsEq_refl s
  | cons info rest ih =>
      intro s
      simp only [tryCreate]
      have hd := apiRequest_dicts oracle fuel s info.endpoint "POST" none (some data) true
        info.version
      split
      · exact hd
      · exact dictsEq_trans hd (ih _)

theorem deleteLoop_dicts (oracle : Oracle) (fuel : Nat) :
    ∀ (l : List EndpointInfo) (s : ClientState),
      dictsEq s (deleteLoop oracle fuel l s).1 := by
  intro l
  induction l with
  | nil => intro s; exact dictsEq_refl s
  | cons info rest ih =>
      intro s
      simp only [deleteLoop]
      have hd := apiRequest_dicts oracle fuel s info.endpoint "DELETE" none none true
        info.version
      split
      · exact hd
      · exact dictsEq_trans hd (ih _)

theorem probeStep_dictGet (oracle : Oracle) (fuel : Nat) (s : ClientState)
    (version : Option String) (endpoint : String) (k : String) :
    dictGet (probeStep oracle fuel s version endpoint).working_endpoints k =
      (if probeAcceptsAt oracle fuel s version endpoint && sweepKey version == k
       then some (EndpointInfo.mk endpoint version)
       else dictGet s.working_endpoints k) := by
  unfold probeStep probeAcceptsAt
  dsimp only
  have hd := (apiRequest_dicts oracle fuel s endpoint "GET" none none false version).1
  split
  · next hacc =>
      rw [dictGet_dictSet, hacc, hd]
      by_cases hk : sweepKey version = k
      · simp [hk]
      · simp [hk]
  · next hacc =>
      rw [hd]
      have : probeAccepts
          (apiRequest oracle fuel s endpoint "GET" none none false version).2.1
          (apiRequest oracle fuel s endpoint "GET" none none false version).2.2 = false := by
        revert hacc
        cases probeAccepts (apiRequest oracle fuel s endpoint "GET" none none false version).2.1
          (apiRequest oracle fuel s endpoint "GET" none none false version).2.2 <;> simp
      rw [this]
      simp

theorem sweep_lastWrite (oracle : Oracle) (fuel : Nat) :
    ∀ (cands : List (Option String × String)) (s : ClientState) (k : String),
      dictGet (sweepProbes oracle fuel cands s).working_endpoints k =
        (match sweepLastAccepted oracle fuel cands s k with
         | some info => some info
         | none => dictGet s.working_endpoints k) := by
  intro cands
  induction cands with
  | nil => intro s k; simp [sweepProbes, sweepLastAccepted]
  | cons c rest ih =>
      intro s k
      obtain ⟨version, endpoint⟩ := c
      simp only [sweepProbes, sweepLastAccepted]
      rw [ih]
      cases sweepLastAccepted oracle fuel rest (probeStep oracle fuel s version endpoint) k with
      | some info => rfl
      | none =>
          rw [probeStep_dictGet]
          by_cases hc : (probeAcceptsAt oracle fuel s version endpoint &&
              sweepKey version == k) = true
          · simp [hc]
          · simp [hc]

theorem respSuccessB_status (r : HttpResult) :
    respSuccessB r = (statusOfRes r == 204 || statusOfRes r == 200) := by
  cases r <;> simp [respSuccessB, statusOfRes]

theorem deleteLoop_any (f : Request → HttpResult) (fuel : Nat) :
    ∀ (l : List EndpointInfo) (s : ClientState), pyTruthy s.token = true →
    (deleteLoop (fun _ => f) fuel l s).2 =
      l.any (fun info =>
        respSuccessB (f (coreReq "DELETE" (buildUrl info.version info.endpoint) none none))) := by
  intro l
  induction l with
  | nil => intro s h; simp [deleteLoop]
  | cons info rest ih =>
      intro s h
      have hm : ("DELETE" = "GET" ∨ "DELETE" = "POST" ∨ "DELETE" = "PUT" ∨
          "DELETE" = "DELETE") := by simp
      simp only [deleteLoop]
      rw [apiRequest_truthy (fun _ => f) fuel s info.endpoint "DELETE" none none true
        info.version h]
      rw [core_status (fun _ => f) s info.endpoint "DELETE" none none true info.version hm]
      rw [core_state (fun _ => f) s info.endpoint "DELETE" none none true info.version hm]
      rw [List.any_cons]
      rw [respSuccessB_status]
      by_cases hb : (statusOfRes (f (coreReq "DELETE" (buildUrl info.version info.endpoint)
          none none)) == 204 ||
          statusOfRes (f (coreReq "DELETE" (buildUrl info.version info.endpoint)
          none none)) == 200) = true
      · rw [if_pos hb, hb]
        simp
      · rw [if_neg hb]
        have hb2 : (statusOfRes (f (coreReq "DELETE" (buildUrl info.version info.endpoint)
            none none)) == 204 ||
            statusOfRes (f (coreReq "DELETE" (buildUrl info.version info.endpoint)
            none none)) == 200) = false := by
          revert hb
          cases (statusOfRes (f (coreReq "DELETE" (buildUrl info.version info.endpoint)
            none none)) == 204 ||
            statusOfRes (f (coreReq "DELETE" (buildUrl info.version info.endpoint)
            none none)) == 200) <;> simp
        rw [hb2]
        simp only [Bool.false_or]
        exact ih _ h

theorem apiRequest_body (oracle : Oracle) (fuel : Nat) (s : ClientState)
    (e m : String) (p d : Option Json) (rfs : Bool) (v : Option String) (b : Json)
    (hb : (apiRequest oracle fuel s e m p d rfs v).2.1 = some b) :
    ∃ n req, oracle n req = HttpResult.response 200 (some b) := by
  unfold apiRequest apiRequestA at hb
  dsimp only at hb
  split at hb
  · exact ⟨_, _, core_body oracle s e m p d rfs v b hb⟩
  · split at hb
    · exact ⟨_, _, core_body oracle _ e m p d rfs v b hb⟩
    · simp at hb

theorem any_key_dictGet : ∀ (fs : List (String × Json)) (k : String),
    fs.any (fun kv => kv.1 = k) = true → ∃ v, dictGet fs k = some v := by
  intro fs
  induction fs with
  | nil => intro k h; simp at h
  | cons kv rest ih =>
      intro k h
      obtain ⟨k0, v0⟩ := kv
      by_cases hk : k0 = k
      · exact ⟨v0, by simp [dictGet, hk]⟩
      · simp only [List.any_cons] at h
        have h2 : rest.any (fun kv => kv.1 = k) = true := by
          revert h
          simp [hk]
        obtain ⟨v, hv⟩ := ih k h2
        exact ⟨v, by simp [dictGet, hk, hv]⟩

theorem noNull_value : ∀ (fs : List (String × Json)) (k : String) (v : Json),
    jsonNoNullEnv (Json.obj fs) = true → dictGet fs k = some v →
    (k = "devices" ∨ k = "results") → v ≠ Json.null := by
  intro fs
  induction fs with
  | nil => intro k v h1 h2 h3; simp [dictGet] at h2
  | cons kv rest ih =>
      intro k v h1 h2 h3
      obtain ⟨k0, v0⟩ := kv
      simp only [jsonNoNullEnv, List.all_cons, Bool.and_eq_true] at h1
      simp only [dictGet] at h2
      by_cases hk : k0 = k
      · rw [if_pos hk] at h2
        have hv : v0 = v := by simpa using h2
        subst hv
        have hcond := h1.1
        rw [hk] at hcond
        rw [if_pos h3] at hcond
        intro hnull
        subst hnull
        simp [jsonIsNull] at hcond
      · rw [if_neg hk] at h2
        have h1r : jsonNoNullEnv (Json.obj rest) = true := by
          simp only [jsonNoNullEnv]
          exact h1.2
        exact ih k v h1r h2 h3

theorem objGet_of_withKey (r : Json) (k : String) (h : isObjWithKey r k = true) :
    ∃ fs, r = Json.obj fs ∧ dictGet fs k = some (objGet r k) := by
  cases r <;> simp [isObjWithKey] at h
  next fields =>
      obtain ⟨v, hv⟩ := any_key_dictGet fields k (by simpa using h)
      exact ⟨fields, rfl, by simp [objGet, hv]⟩

theorem body_noNullEnv (oracle : Oracle) (fuel : Nat)
    (H : ∀ n req, bodyNoNull (oracle n req) = true) (s : ClientState)
    (e m : String) (p d : Option Json) (rfs : Bool) (v : Option String) (b : Json)
    (hb : (apiRequest oracle fuel s e m p d rfs v).2.1 = some b) :
    jsonNoNullEnv b = true := by
  obtain ⟨n, req, hr⟩ := apiRequest_body oracle fuel s e m p d rfs v b hb
  have := H n req
  rw [hr] at this
  simpa [bodyNoNull] using this

theorem objGet_notNull (oracle : Oracle) (fuel : Nat)
    (H : ∀ n req, bodyNoNull (oracle n req) = true) (s : ClientState)
    (e : String) (rfs : Bool) (ver : Option String) (res : Json) (k : String)
    (hres : (apiRequest oracle fuel s e "GET" none none rfs ver).2.1 = some res)
    (hkey : isObjWithKey res k = true) (hk : k = "devices" ∨ k = "results") :
    objGet res k ≠ Json.null := by
  obtain ⟨fs, hfs, hget⟩ := objGet_of_withKey res k hkey
  have henv : jsonNoNullEnv res = true :=
    body_noNullEnv oracle fuel H s e "GET" none none rfs ver res hres
  rw [hfs] at henv
  exact noNull_value fs k (objGet res k) henv hget hk

theorem tryDiscovered_notNull (oracle : Oracle) (fuel : Nat)
    (H : ∀ n req, bodyNoNull (oracle n req) = true) :
    ∀ (l : List (String × EndpointInfo)) (s s' : ClientState) (v : Json),
      tryDiscovered oracle fuel l s = (s', some v) → v ≠ Json.null := by
  intro l
  induction l with
  | nil => intro s s' v h; simp [tryDiscovered] at h
  | cons kv rest ih =>
      intro s s' v h
      obtain ⟨key, info⟩ := kv
      simp only [tryDiscovered] at h
      split at h
      · split at h
        · next res hres =>
            split at h
            · next harr =>
                have hv : res = v := by
                  have := congrArg Prod.snd h
                  simpa using this
                subst hv
                exact jsonIsArr_ne_null res harr
            · split at h
              · next hdev =>
                  have hv : objGet res "devices" = v := by
                    have := congrArg Prod.snd h
                    simpa using this
                  subst hv
                  exact objGet_notNull oracle fuel H s info.endpoint true info.version res
                    "devices" hres hdev (Or.inl rfl)
              · split at h
                · next hres2 =>
                    have hv : objGet res "results" = v := by
                      have := congrArg Prod.snd h
                      simpa using this
                    subst hv
                    exact objGet_notNull oracle fuel H s info.endpoint true info.version res
                      "results" hres hres2 (Or.inr rfl)
                · exact ih _ _ _ h
        · exact ih _ _ _ h
      · exact ih _ _ _ h

theorem tryFallback_notNull (oracle : Oracle) (fuel : Nat)
    (H : ∀ n req, bodyNoNull (oracle n req) = true) :
    ∀ (l : List EndpointInfo) (s s' : ClientState) (v : Json),
      tryFallback oracle fuel l s = (s', some v) → v ≠ Json.null := by
  intro l
  induction l with
  | nil => intro s s' v h; simp [tryFallback] at h
  | cons info rest ih =>
      intro s s' v h
      simp only [tryFallback] at h
      split at h
      · next res hres =>
          split at h
          · next harr =>
              have hv : res = v := by
                have := congrArg Prod.snd h
                simpa using this
              subst hv
              exact jsonIsArr_ne_null res harr
          · split at h
            · next hdev =>
                have hv : objGet res "devices" = v := by
                  have := congrArg Prod.snd h
                  simpa using this
                subst hv
                exact objGet_notNull oracle fuel H s info.endpoint true info.version res
                  "devices" hres hdev (Or.inl rfl)
            · exact ih _ _ _ h
      · exact ih _ _ _ h

theorem profileDevices_truthy (p v : Json) (h : profileDevices p = Except.ok (some v)) :
    pyTruthy v = true := by
  unfold profileDevices at h
  repeat' split at h
  all_goals simp_all

theorem profileStep_notNull (s1 : ClientState) (profOpt : Option Json)
    (s2 : ClientState) (v : Json)
    (h : getDevicesProfileStep s1 profOpt = Except.ok (s2, some v)) : v ≠ Json.null := by
  unfold getDevicesProfileStep at h
  repeat' split at h
  all_goals
    first
      | (simp_all
         done)
      | (simp_all
         rename_i p2 heq
         exact pyTruthy_ne_null _ (profileDevices_truthy _ _ heq))

theorem getDevices_notNull (oracle : Oracle) (fuel : Nat) (s : ClientState)
    (H : ∀ n req, bodyNoNull (oracle n req) = true) :
    (getDevices oracle fuel s).2 ≠ Except.ok Json.null := by
  unfold getDevices
  dsimp only
  cases hpr : getUserProfile oracle fuel s with
  | mk s1 r1 =>
      cases r1 with
      | error e => simp
      | ok profOpt =>
          dsimp only
          cases hstep : getDevicesProfileStep s1 profOpt with
          | error e => simp
          | ok pr2 =>
              obtain ⟨s2, o⟩ := pr2
              cases o with
              | some devices =>
                  have hnn := profileStep_notNull s1 profOpt s2 devices hstep
                  simpa using hnn
              | none =>
                  try dsimp only
                  cases hdisc : discover oracle fuel s2 with
                  | mk s3 r3 =>
                      cases r3 with
                      | error e => simp
                      | ok we =>
                          try dsimp only
                          cases hdr : tryDiscovered oracle fuel s3.working_endpoints s3 with
                          | mk s4 o4 =>
                              cases o4 with
                              | some v =>
                                  have hnn := tryDiscovered_notNull oracle fuel H _ _ _ _ hdr
                                  simpa using hnn
                              | none =>
                                  try dsimp only
                                  cases hfr : tryFallback oracle fuel
                                      (fallbackCandidates s4.user_id) s4 with
                                  | mk s5 o5 =>
                                      cases o5 with
                                      | some v =>
                                          have hnn := tryFallback_notNull oracle fuel H _ _ _ _ hfr
                                          simpa using hnn
                                      | none => simp

theorem jsonIsNull_false (v : Json) (h : v ≠ Json.null) : jsonIsNull v = false := by
  cases v <;> simp_all [jsonIsNull]

theorem resolveLoop_skip (f : String) (rest : List String)
    (channel : List (String × Json)) (h : presentNonNull channel f = false) :
    resolveLoop (f :: rest) channel = resolveLoop rest channel := by
  simp only [resolveLoop]
  cases hv : dictGet channel f with
  | none => rfl
  | some v0 =>
      unfold presentNonNull at h
      rw [hv] at h
      simp only [Bool.not_eq_false'] at h
      dsimp only
      rw [h]
      simp

theorem resolveLoop_hit (f : String) (rest : List String)
    (channel : List (String × Json)) (v : Json) (h : dictGet channel f = some v)
    (hn : v ≠ Json.null) : resolveLoop (f :: rest) channel = some v := by
  simp only [resolveLoop]
  rw [h]
  dsimp only
  rw [jsonIsNull_false v hn]
  simp

theorem getTemperatures_keeps (oracle : Oracle) (fuel : Nat) (s : ClientState)
    (deviceId : String) : keepsKeys s (getTemperatures oracle fuel s deviceId).1 := by
  unfold getTemperatures
  exact dictsEq_keepsKeys (tryFirst_dicts oracle fuel _ s)

theorem getAlerts_keeps (oracle : Oracle) (fuel : Nat) (s : ClientState)
    (deviceId : String) : keepsKeys s (getAlerts oracle fuel s deviceId).1 := by
  unfold getAlerts
  exact dictsEq_keepsKeys (tryFirst_dicts oracle fuel _ s)

theorem createAlert_keeps (oracle : Oracle) (fuel : Nat) (s : ClientState)
    (deviceId channelId : String) (minT maxT : Option Rat) :
    keepsKeys s (createAlert oracle fuel s deviceId channelId minT maxT).1 := by
  unfold createAlert
  exact dictsEq_keepsKeys (tryCreate_dicts oracle fuel _ _ s)

theorem deleteAlert_keeps (oracle : Oracle) (fuel : Nat) (s : ClientState)
    (alertId : String) : keepsKeys s (deleteAlert oracle fuel s alertId).1 := by
  unfold deleteAlert
  exact dictsEq_keepsKeys (deleteLoop_dicts oracle fuel _ s)

/-- C1 (amended): mid-session — with a truthy token stored — `_api_request`
performs NO re-authentication and NO retry: it is exactly the single-request
engine `apiRequestCore`, it issues exactly one HTTP call and leaves every
other state component (in particular the stored token) unchanged, and a 401
response is returned as the failure `(None, 401)` of that single request.
Re-authentication happens only when no truthy token is set at the start of a
request. -/
theorem c1_theorem (oracle : Oracle) (fuel : Nat) (s : ClientState) (e m : String)
    (p d : Option Json) (rfs : Bool) (v : Option String)
    (h : pyTruthy s.token = true)
    (hm : m = "GET" ∨ m = "POST" ∨ m = "PUT" ∨ m = "DELETE") :
    apiRequest oracle fuel s e m p d rfs v = apiRequestCore oracle s e m p d rfs v
    ∧ (apiRequest oracle fuel s e m p d rfs v).1 = { s with nreq := s.nreq + 1 }
    ∧ (∀ b, oracle s.nreq (coreReq m (buildUrl v e) p d) = HttpResult.response 401 b →
        (apiRequest oracle fuel s e m p d rfs v).2 = (none, 401)) := by
  have h1 := apiRequest_truthy oracle fuel s e m p d rfs v h
  refine ⟨h1, ?_, ?_⟩
  · rw [h1]
    exact core_state oracle s e m p d rfs v hm
  · intro b hb
    rw [h1]
    simp only [apiRequestCore]
    rw [if_pos hm, hb]
    simp

/-- C1 witness: a client with token `"t"` making a GET that receives 401 gets
`(None, 401)` back. -/
theorem c1_witness :
    (apiRequest oracle401 1 baseState "devices" "GET" none none true none).2 =
      (none, 401) :=
  (c1_theorem oracle401 1 baseState "devices" "GET" none none true none rfl
    (Or.inl rfl)).2.2 none rfl

/-- C1 counterexample: on a network that answers 401 to everything, a client
holding token `"t"` issues exactly ONE HTTP call (`nreq` goes 0 → 1), keeps
its token unchanged (the result state equals `baseState` except for the
counter), performs no login POST and no retry, and gets `(None, 401)` — there
is no "exactly one re-authentication followed by one retry" anywhere in
`_api_request`. -/
theorem c1_counterexample :
    apiRequest oracle401 1 baseState "devices" "GET" none none true none =
      ({ baseState with nreq := 1 }, (none, 401)) := rfl

/-- C2 (amended): the candidate stored in the working-endpoint cache under a
synthesised key is the LAST accepted candidate for that key in the fixed
iteration order — each acceptance overwrites the previous entry via plain dict
assignment — and when no candidate for the key is accepted the prior entry
is kept. -/
theorem c2_theorem (oracle : Oracle) (fuel : Nat) :
    ∀ (cands : List (Option String × String)) (s : ClientState) (k : String),
      dictGet (sweepProbes oracle fuel cands s).working_endpoints k =
        (match sweepLastAccepted oracle fuel cands s k with
         | some info => some info
         | none => dictGet s.working_endpoints k) :=
  sweep_lastWrite oracle fuel

/-- C2 counterexample: with `(v1, "devices")` and `(v1, "device/list")` both
accepted (both answer 200 with a one-element list), processing the first
candidate alone stores `{"endpoint": "devices"}` under `devices_v1`, but the
full sweep inside discovery ends with `{"endpoint": "device/list"}` — the
LATER accepted candidate replaced the first, refuting "the first accepted
candidate is kept". -/
theorem c2_counterexample :
    (sweepProbes cexO2 1 [(some "v1", "devices")] c2State).working_endpoints =
      [("devices_v1", EndpointInfo.mk "devices" (some "v1"))]
    ∧ (discover cexO2 1 c2State).2 =
      Except.ok [("devices_v1", EndpointInfo.mk "device/list" (some "v1"))]
    ∧ EndpointInfo.mk "device/list" (some "v1") ≠ EndpointInfo.mk "devices" (some "v1") :=
  ⟨rfl, rfl, by decide⟩

/-- C3 (amended): a discovery candidate is accepted iff the response status is
200 AND the payload is a list — empty or not — or a NON-EMPTY dict; in
particular a 200 response carrying an empty list IS accepted. -/
theorem c3_theorem : ∀ (result : Option Json) (status : Nat),
    probeAccepts result status = true ↔
      (status = 200 ∧ ((∃ xs, result = some (Json.arr xs)) ∨
        (∃ fs, fs ≠ [] ∧ result = some (Json.obj fs)))) := by
  intro result status
  cases result with
  | none => simp [probeAccepts]
  | some r =>
      cases r <;>
        simp [probeAccepts, jsonIsArr, jsonIsObj, pyTruthy, and_comm,
          List.isEmpty_iff, beq_iff_eq]

/-- C3 counterexample: a discovery sweep in which the only 200 response is an
EMPTY list (probe `(v1, "devices")`) ends with that candidate recorded in the
working-endpoint cache, refuting "a 200 response carrying an empty list is
NOT accepted". -/
theorem c3_counterexample :
    probeAccepts (some (Json.arr [])) 200 = true
    ∧ (discover cexO3 1 c2State).2 =
        Except.ok [("devices_v1", EndpointInfo.mk "devices" (some "v1"))] :=
  ⟨rfl, rfl⟩

/-- C4 (amended): endpoint discovery is cache-first and idempotent — a
non-empty working-endpoint cache is returned unchanged, with no candidate
probed and no state touched.  (The consequence claimed for `get_devices` is
false: a second call still issues the profile request plus one request per
tried cached endpoint — see the counterexample.) -/
theorem c4_theorem (oracle : Oracle) (fuel : Nat) (s : ClientState)
    (h : s.working_endpoints ≠ []) :
    discover oracle fuel s = (s, Except.ok s.working_endpoints) := by
  unfold discover
  have hne : s.working_endpoints.isEmpty = false := by
    cases hwe : s.working_endpoints
    · exact absurd hwe h
    · rfl
  rw [hne]
  simp

/-- C4 witness: discovery on a populated cache returns it unchanged. -/
theorem c4_witness :
    discover allFail 1 popState = (popState, Except.ok popState.working_endpoints) :=
  c4_theorem allFail 1 popState (by decide)

/-- C4 counterexample: replaying spec property 7's scenario, the first
`get_devices()` call populates the cache and ends with 50 HTTP calls issued;
the second call ends at 52 — it issues exactly TWO further network requests
(the profile fetch plus the cached-endpoint fetch), refuting "at most one
network request" on the second call. -/
theorem c4_counterexample :
    (getDevices cexO4 1 baseState).1.nreq = 50
    ∧ (getDevices cexO4 1 baseState).1.working_endpoints =
        [("devices_v1", EndpointInfo.mk "devices" (some "v1"))]
    ∧ (getDevices cexO4 1 (getDevices cexO4 1 baseState).1).1.nreq = 52 :=
  ⟨rfl, rfl, rfl⟩

/-- C5 (amended): on the discovered-endpoint path `get_devices()` unwraps all
three payload shapes `[{"id":1}]`, `{"devices":[{"id":1}]}` and
`{"results":[{"id":1}]}` to `[{"id":1}]`; on the FALLBACK path only the bare
list and the `"devices"` envelope are unwrapped — a `{"results": ...}` payload
there is skipped and the call falls through to the empty list. -/
theorem c5_theorem :
    (getDevices oShapeA 1 popState).2 = Except.ok devList1
    ∧ (getDevices oShapeB 1 popState).2 = Except.ok devList1
    ∧ (getDevices oShapeC 1 popState).2 = Except.ok devList1
    ∧ (getDevices oShapeE 1 baseState).2 = Except.ok devList1
    ∧ (getDevices oShapeD 1 baseState).2 = Except.ok (Json.arr []) :=
  ⟨rfl, rfl, rfl, rfl, rfl⟩

/-- C5 counterexample: with an empty cache, a failed profile and all discovery
probes 404, the first fallback candidate answers 200
`{"results": [{"id":1}]}` — yet `get_devices()` returns `[]`, not
`[{"id":1}]`: the fallback path lacks the `"results"` unwrapping, refuting
"this same three-shape unwrapping applies on the fallback path". -/
theorem c5_counterexample :
    (getDevices oShapeD 1 baseState).2 = Except.ok (Json.arr [])
    ∧ Json.arr [] ≠ devList1 :=
  ⟨rfl, by simp [devList1]⟩

/-- C6 (confirmed): for every single request issued by the request engine, a
200 response is returned with its parsed body — `(None, 200)` when the body
fails JSON parsing — every non-200 response is returned as
`(None, original status)`, and a transport failure as `(None, 500)`; the
engine returns in all cases (it is a total function), so no exception escapes
it. -/
theorem c6_theorem (oracle : Oracle) (s : ClientState) (e m : String)
    (p d : Option Json) (rfs : Bool) (v : Option String)
    (hm : m = "GET" ∨ m = "POST" ∨ m = "PUT" ∨ m = "DELETE") :
    (∀ b, oracle s.nreq (coreReq m (buildUrl v e) p d) = HttpResult.response 200 b →
        apiRequestCore oracle s e m p d rfs v = ({ s with nreq := s.nreq + 1 }, (b, 200)))
    ∧ (∀ st b, st ≠ 200 →
        oracle s.nreq (coreReq m (buildUrl v e) p d) = HttpResult.response st b →
        apiRequestCore oracle s e m p d rfs v = ({ s with nreq := s.nreq + 1 }, (none, st)))
    ∧ (oracle s.nreq (coreReq m (buildUrl v e) p d) = HttpResult.transportError →
        apiRequestCore oracle s e m p d rfs v = ({ s with nreq := s.nreq + 1 }, (none, 500))) := by
  refine ⟨?_, ?_, ?_⟩
  · intro b hb
    simp only [apiRequestCore]
    rw [if_pos hm, hb]
    simp
  · intro st b hst hb
    simp only [apiRequestCore]
    rw [if_pos hm, hb]
    dsimp only
    have hst2 : (st == 200) = false := by simpa using hst
    rw [hst2]
    simp
  · intro hb
    simp only [apiRequestCore]
    rw [if_pos hm, hb]

/-- C6 witness: a 200 response whose body fails JSON parsing yields
`(None, 200)`. -/
theorem c6_witness :
    apiRequestCore oParseFail baseState "devices" "GET" none none true none =
      ({ baseState with nreq := 1 }, (none, 200)) :=
  (c6_theorem oParseFail baseState "devices" "GET" none none true none
    (Or.inl rfl)).1 none rfl

/-- C7 (amended): `get_devices()` never returns JSON `null` PROVIDED no 200
payload is a dict whose `"devices"`/`"results"` member is an explicit `null`
(without that proviso the claim is false — see the counterexample); and on
total failure (every request 404) it returns the empty list, never null. -/
theorem c7_theorem :
    (∀ (oracle : Oracle) (fuel : Nat) (s : ClientState),
      (∀ n req, bodyNoNull (oracle n req) = true) →
      (getDevices oracle fuel s).2 ≠ Except.ok Json.null)
    ∧ (getDevices allFail 1 baseState).2 = Except.ok (Json.arr []) :=
  ⟨fun oracle fuel s H => getDevices_notNull oracle fuel s H, rfl⟩

/-- C7 witness: on the all-404 network the result of `get_devices()` is not
null. -/
theorem c7_witness : (getDevices allFail 1 popState).2 ≠ Except.ok Json.null :=
  c7_theorem.1 allFail 1 popState (fun _ _ => rfl)

/-- C7 counterexample: when the cached devices endpoint answers 200
`{"devices": null}`, `get_devices()` returns JSON `null` — refuting
"get_devices() never returns null for every possible sequence of endpoint
responses". -/
theorem c7_counterexample :
    (getDevices cexO7 1 popState).2 = Except.ok Json.null := rfl

/-- C8 (confirmed): for a deterministic network and an authenticated client
(truthy token), `delete_alert` returns `True` iff SOME candidate endpoint —
cached-then-fallback order, as listed by `deleteCandidates` — responds with
status 204 or 200; with every candidate answering 404 it returns `False`, and
the function is total, so no exception reaches the caller. -/
theorem c8_theorem (f : Request → HttpResult) (fuel : Nat) (s : ClientState)
    (alertId : String) (h : pyTruthy s.token = true) :
    (deleteAlert (fun _ => f) fuel s alertId).2 =
      (deleteCandidates s alertId).any (fun info =>
        respSuccessB (f (coreReq "DELETE" (buildUrl info.version info.endpoint)
          none none))) :=
  deleteLoop_any f fuel (deleteCandidates s alertId) s h

/-- C8 witness: deleting a non-existent alert id — every candidate answers
404 — yields `False`. -/
theorem c8_witness : (deleteAlert (fun _ => f404) 1 popState "9").2 = false :=
  (c8_theorem f404 1 popState "9" rfl).trans rfl

/-- C9 (confirmed): the temperature sensor resolves a channel's value by
trying `temp`, `temperature`, `current_temp`, `value` in that order and
taking the first present non-null one: whenever `temp` and `temperature` are
absent-or-null and `current_temp` holds a non-null value, that value is the
resolved temperature. -/
theorem c9_theorem (channel : List (String × Json)) (v : Json)
    (h1 : presentNonNull channel "temp" = false)
    (h2 : presentNonNull channel "temperature" = false)
    (h3 : dictGet channel "current_temp" = some v)
    (h4 : v ≠ Json.null) :
    resolveTemp channel = some v := by
  unfold resolveTemp tempFieldNames
  rw [resolveLoop_skip _ _ _ h1, resolveLoop_skip _ _ _ h2,
    resolveLoop_hit _ _ _ v h3 h4]

/-- C9 witness: a channel `{"current_temp": 72.5}` with no `temp` key
resolves to `72.5`. -/
theorem c9_witness :
    resolveTemp [("current_temp", Json.num 72.5)] = some (Json.num 72.5) :=
  c9_theorem [("current_temp", Json.num 72.5)] (Json.num 72.5) rfl rfl rfl
    (fun h => Json.noConfusion h)

/-- C10 (amended): no operation of the client ever removes a key from
`working_endpoints` or `device_cache` — both key sets only grow over the
instance's lifetime.  (The token/user-id half of the original claim is false:
a 200 payload carrying an explicit null in its `"key"`/`"id"` field overwrites
them with null — see the counterexample.) -/
theorem c10_theorem (oracle : Oracle) (fuel : Nat) (s : ClientState)
    (e m : String) (p d : Option Json) (rfs : Bool) (v : Option String)
    (deviceId channelId alertId : String) (minT maxT : Option Rat) :
    keepsKeys s (authFuel oracle fuel s).1
    ∧ keepsKeys s (apiRequest oracle fuel s e m p d rfs v).1
    ∧ keepsKeys s (getUserProfile oracle fuel s).1
    ∧ keepsKeys s (discover oracle fuel s).1
    ∧ keepsKeys s (getDevices oracle fuel s).1
    ∧ keepsKeys s (getDevice oracle fuel s deviceId).1
    ∧ keepsKeys s (getTemperatures oracle fuel s deviceId).1
    ∧ keepsKeys s (getAlerts oracle fuel s deviceId).1
    ∧ keepsKeys s (createAlert oracle fuel s deviceId channelId minT maxT).1
    ∧ keepsKeys s (deleteAlert oracle fuel s alertId).1 :=
  ⟨dictsEq_keepsKeys (authFuel_dicts oracle fuel s),
   dictsEq_keepsKeys (apiRequest_dicts oracle fuel s e m p d rfs v),
   dictsEq_keepsKeys (getUserProfile_dicts oracle fuel s),
   discover_keeps oracle fuel s,
   getDevices_keeps oracle fuel s,
   getDevice_keeps oracle fuel s deviceId,
   getTemperatures_keeps oracle fuel s deviceId,
   getAlerts_keeps oracle fuel s deviceId,
   createAlert_keeps oracle fuel s deviceId channelId minT maxT,
   deleteAlert_keeps oracle fuel s alertId⟩

/-- C10 witness: the cached `devices_v1` key survives a full `get_devices()`
call. -/
theorem c10_witness :
    dictGet ((getDevices allFail 1 popState).1).working_endpoints "devices_v1" ≠
      none :=
  ((c10_theorem allFail 1 popState "devices" "GET" none none true none "d" "c" "a"
    none none).2.2.2.2.1).1 "devices_v1" (by decide)

/-- C10 counterexample: a client that has captured `user_id = 5` fetches the
profile again, the endpoint answers 200 `{"id": null}` (a truthy dict with an
`"id"` member), and `get_user_profile` overwrites `user_id` with null —
refuting "user_id, once set to a non-null value, is never reset to null". -/
theorem c10_counterexample :
    (getUserProfile cexO10 1 c10State).1.user_id = Json.null
    ∧ c10State.user_id = Json.num 5
    ∧ Json.num 5 ≠ Json.null :=
  ⟨rfl, rfl, fun h => Json.noConfusion h⟩
